import Mathlib

/-!
Verification of the DJ request-system queue engine (`server.js`).

The embedding models the SQLite-backed state (tables `queue`,
`recently_played`, `user_cooldowns`, `default_playlist`, `user_requests`,
`settings`) and the operations that mutate it: the `POST /api/request`
handler, the auto-fill scheduler tick, `POST /api/played/:queueId`,
the admin delete/clear endpoints, the settings update, and the periodic
`cleanRecentlyPlayed` sweep.

Timestamps are milliseconds since the Unix epoch.  Columns filled by
SQLite's `CURRENT_TIMESTAMP` have second resolution and render as
`YYYY-MM-DD HH:MM:SS`; timestamps produced in JavaScript via
`toISOString()` render as `YYYY-MM-DDTHH:MM:SS.sssZ`.  `cleanRecentlyPlayed`
compares one format against the other with SQLite's lexicographic TEXT
comparison, which we model faithfully with a character-level comparison of
the rendered strings.
-/

/-- Gregorian civil date from a count of days since 1970-01-01
(Hinnant's `civil_from_days`, specialised to non-negative days). -/
def civilFromDays (days : Nat) : Nat × Nat × Nat :=
  let z := days + 719468
  let era := z / 146097
  let doe := z % 146097
  let yoe := (doe - doe / 1460 + doe / 36524 - doe / 146096) / 365
  let y := yoe + era * 400
  let doy := doe - (365 * yoe + yoe / 4 - yoe / 100)
  let mp := (5 * doy + 2) / 153
  let d := doy - (153 * mp + 2) / 5 + 1
  let m := if mp < 10 then mp + 3 else mp - 9
  (if m ≤ 2 then y + 1 else y, m, d)

/-- Zero-pad a numeral to two digits. -/
def pad2 (n : Nat) : String :=
  if n < 10 then "0" ++ toString n else toString n

/-- Zero-pad a numeral to three digits. -/
def pad3 (n : Nat) : String :=
  if n < 10 then "00" ++ toString n
  else if n < 100 then "0" ++ toString n else toString n

/-- Zero-pad a numeral to four digits. -/
def pad4 (n : Nat) : String :=
  if n < 10 then "000" ++ toString n
  else if n < 100 then "00" ++ toString n
  else if n < 1000 then "0" ++ toString n else toString n

/-- Date part `YYYY-MM-DD` of a millisecond timestamp. -/
def fmtDate (ms : Nat) : String :=
  let (y, m, d) := civilFromDays (ms / 86400000)
  pad4 y ++ "-" ++ pad2 m ++ "-" ++ pad2 d

/-- SQLite `CURRENT_TIMESTAMP` rendering: `YYYY-MM-DD HH:MM:SS` (UTC,
second resolution). -/
def fmtSqlite (ms : Nat) : String :=
  let sod := ms / 1000 % 86400
  fmtDate ms ++ " " ++ pad2 (sod / 3600) ++ ":" ++ pad2 (sod % 3600 / 60)
    ++ ":" ++ pad2 (sod % 60)

/-- JavaScript `Date.prototype.toISOString` rendering:
`YYYY-MM-DDTHH:MM:SS.sssZ` (UTC). -/
def fmtIso (ms : Nat) : String :=
  let sod := ms / 1000 % 86400
  fmtDate ms ++ "T" ++ pad2 (sod / 3600) ++ ":" ++ pad2 (sod % 3600 / 60)
    ++ ":" ++ pad2 (sod % 60) ++ "." ++ pad3 (ms % 1000) ++ "Z"

/-- Lexicographic (memcmp-style) strict order on character lists: SQLite's
BINARY collation on ASCII text. -/
def lexLt : List Char → List Char → Bool
  | [], [] => false
  | [], _ :: _ => true
  | _ :: _, [] => false
  | a :: as, b :: bs =>
    if a.toNat < b.toNat then true
    else if b.toNat < a.toNat then false
    else lexLt as bs

/-- SQLite TEXT `<` on two rendered strings. -/
def sqlTextLt (a b : String) : Bool :=
  lexLt a.toList b.toList

/-- A song descriptor as sent by the client (`song` in the request body).
Empty strings model missing/falsy fields. -/
structure Song where
  sid : String
  title : String
  artist : String
  duration : String
  thumbnail : Option String
  explicit : Bool
deriving DecidableEq

/-- A row of the `queue` table.  `requested_at` is filled by
`CURRENT_TIMESTAMP`, hence second resolution. -/
structure QueueRow where
  id : Nat
  song_id : String
  title : String
  artist : String
  duration : String
  thumbnail : Option String
  requested_at : Nat
  played : Bool
deriving DecidableEq

/-- A row of the `recently_played` table.  `played_at` keeps the
millisecond event time; `fmtSqlite` truncates it to the second resolution
that `CURRENT_TIMESTAMP` actually stores. -/
structure RPRow where
  id : Nat
  song_id : String
  title : String
  artist : String
  played_at : Nat
deriving DecidableEq

/-- A row of the `user_cooldowns` table; `last_request` is written from
JavaScript as a full-precision ISO string, so we keep milliseconds. -/
structure CooldownRow where
  ip : String
  last_request : Nat
deriving DecidableEq

/-- A row of the `default_playlist` table. -/
structure PlaylistRow where
  id : Nat
  song_id : String
  title : String
  artist : String
  duration : String
  thumbnail : Option String
deriving DecidableEq

/-- A row of the `user_requests` attribution table. -/
structure UserRequestRow where
  id : Nat
  ip : String
  queue_id : Nat
deriving DecidableEq

/-- The `settings` singleton row. -/
structure Settings where
  theme : String
  explicit_allowed : Bool
  allowed_genres : String
  colors : String
  event_name : String
  custom_message : String
deriving DecidableEq

/-- The whole persistent store. -/
structure State where
  queue : List QueueRow
  recently_played : List RPRow
  user_cooldowns : List CooldownRow
  default_playlist : List PlaylistRow
  user_requests : List UserRequestRow
  settings : Settings
  nextQueueId : Nat
  nextRpId : Nat
  nextUrId : Nat
  nextPlaylistId : Nat
deriving DecidableEq

/-- Fresh database: empty tables, default settings, AUTOINCREMENT at 1. -/
def initialState : State :=
  { queue := [], recently_played := [], user_cooldowns := []
    default_playlist := [], user_requests := []
    settings :=
      { theme := "general", explicit_allowed := true
        allowed_genres := "[\x22All Genres\x22]", colors := "", event_name := ""
        custom_message := "" }
    nextQueueId := 1, nextRpId := 1, nextUrId := 1, nextPlaylistId := 1 }

/-- Models `cleanRecentlyPlayed`: `DELETE FROM recently_played WHERE played_at < ?`
with `?` bound to the ISO rendering of `now - 1h`.  The stored
`played_at` values render in SQLite format, so this is a cross-format
lexicographic comparison. -/
def cleanRecentlyPlayed (now : Nat) (s : State) : State :=
  let keep := fun (r : RPRow) =>
    !(sqlTextLt (fmtSqlite r.played_at) (fmtIso (now - 3600000)))
  { s with recently_played := s.recently_played.filter keep }

/-- Models `checkCooldown`: true when the identity may request; no row means no
cooldown, otherwise `(now - last_request) / 1000 >= 30` seconds must have
elapsed. -/
def checkCooldown (now : Nat) (ip : String) (s : State) : Bool :=
  match s.user_cooldowns.find? (fun c => c.ip == ip) with
  | none => true
  | some c => 30000 ≤ now - c.last_request

/-- Models `INSERT OR REPLACE INTO user_cooldowns`: upsert keyed by ip. -/
def upsertCooldown (ip : String) (now : Nat) :
    List CooldownRow → List CooldownRow
  | [] => [⟨ip, now⟩]
  | c :: cs =>
    if c.ip == ip then ⟨ip, now⟩ :: cs else c :: upsertCooldown ip now cs

/-- The cap query: `COUNT(*) FROM user_requests ur JOIN queue q ON
ur.queue_id = q.id WHERE ur.ip_address = ? AND q.played = 0`. -/
def countNonPlayed (ip : String) (s : State) : Nat :=
  (s.user_requests.filter
    (fun ur => ur.ip == ip &&
      s.queue.any (fun q => q.id == ur.queue_id && !q.played))).length

/-- The `song_id`s of the non-played queue rows. -/
def pendingIds (s : State) : List String :=
  (s.queue.filter (fun q => !q.played)).map (fun q => q.song_id)

/-- The `song_id`s present in `recently_played`. -/
def rpIds (s : State) : List String :=
  s.recently_played.map (fun r => r.song_id)

/-- Outcome of `POST /api/request`, one constructor per return path. -/
inductive ReqResult where
  | invalidSong
  | quotaExceeded
  | cooldownActive
  | duplicateInQueue
  | recentlyPlayedHit
  | accepted (queueId : Nat)
deriving DecidableEq

/-- The HTTP status and error/success message each outcome is sent with. -/
def respOf : ReqResult → Nat × String
  | .invalidSong => (400, "Invalid song data")
  | .quotaExceeded => (429, "You can only have 5 songs in the queue at once")
  | .cooldownActive => (429, "Please wait 30 seconds between requests")
  | .duplicateInQueue => (409, "This song is already in the queue")
  | .recentlyPlayedHit => (409, "This song was played recently")
  | .accepted _ => (200, "Song added to queue")

/-- The validation gate `!song || !song.id || !song.title || !song.artist`
(empty strings model missing/falsy fields). -/
def validSong (sg : Song) : Bool :=
  !(sg.sid == "" || sg.title == "" || sg.artist == "")

/-- Live-duplicate query: `SELECT id FROM queue WHERE song_id = ? AND
played = 0`. -/
def dupPending (sid : String) (s : State) : Bool :=
  s.queue.any (fun q => q.song_id == sid && !q.played)

/-- Recent-play query: `SELECT id FROM recently_played WHERE song_id = ?`. -/
def recentHit (sid : String) (s : State) : Bool :=
  s.recently_played.any (fun r => r.song_id == sid)

/-- The success path of `POST /api/request`: insert the queue row, the
`user_requests` attribution row, and upsert the requester's cooldown. -/
def acceptNewRequest (now : Nat) (ip : String) (sg : Song) (s1 : State) :
    ReqResult × State :=
  let row : QueueRow :=
    ⟨s1.nextQueueId, sg.sid, sg.title, sg.artist, sg.duration,
      sg.thumbnail, now / 1000, false⟩
  let ur : UserRequestRow := ⟨s1.nextUrId, ip, s1.nextQueueId⟩
  (.accepted s1.nextQueueId,
    { s1 with
      queue := s1.queue ++ [row]
      user_requests := s1.user_requests ++ [ur]
      user_cooldowns := upsertCooldown ip now s1.user_cooldowns
      nextQueueId := s1.nextQueueId + 1
      nextUrId := s1.nextUrId + 1 })

/-- Models `POST /api/request`: validate, cap check, cooldown check, live-duplicate
check, `cleanRecentlyPlayed`, recent-play check, then insert.  `none` models
a body without a `song` object. -/
def postRequest (now : Nat) (ip : String) (song : Option Song) (s : State) :
    ReqResult × State :=
  match song with
  | none => (.invalidSong, s)
  | some sg =>
    if !(validSong sg) then (.invalidSong, s)
    else if 5 ≤ countNonPlayed ip s then (.quotaExceeded, s)
    else if !(checkCooldown now ip s) then (.cooldownActive, s)
    else if dupPending sg.sid s then (.duplicateInQueue, s)
    else
      let s1 := cleanRecentlyPlayed now s
      if recentHit sg.sid s1 then (.recentlyPlayedHit, s1)
      else acceptNewRequest now ip sg s1

/-- Models `POST /api/played/:queueId`: 404 only when no queue row has the id
(the lookup does not exclude already-played rows); otherwise set
`played = 1` and insert a copy into `recently_played`. -/
def markPlayed (now : Nat) (qid : Nat) (s : State) : Bool × State :=
  match s.queue.find? (fun q => q.id == qid) with
  | none => (false, s)
  | some q =>
    let setPlayed := fun (r : QueueRow) =>
      if r.id == qid then { r with played := true } else r
    let rp : RPRow := ⟨s.nextRpId, q.song_id, q.title, q.artist, now⟩
    (true,
      { s with
        queue := s.queue.map setPlayed
        recently_played := s.recently_played ++ [rp]
        nextRpId := s.nextRpId + 1 })

/-- Models `DELETE /api/queue/:queueId`: delete the row with the id (played or
not); reports 404 when nothing was deleted. -/
def removeFromQueue (qid : Nat) (s : State) : Bool × State :=
  (s.queue.any (fun q => q.id == qid),
    { s with queue := s.queue.filter (fun q => !(q.id == qid)) })

/-- Models `DELETE /api/queue`: `DELETE FROM queue WHERE played = 0`. -/
def clearQueue (s : State) : State :=
  { s with queue := s.queue.filter (fun q => q.played) }

/-- Models `POST /api/settings`: replaces the singleton settings row; touches no
other table. -/
def updateSettings (inp : Settings) (s : State) : State :=
  { s with settings := inp }

/-- The fallback entries eligible for auto-fill: `SELECT * FROM
default_playlist WHERE song_id NOT IN (recently played ids)`. -/
def eligibleFallback (s : State) : List PlaylistRow :=
  s.default_playlist.filter (fun p => !((rpIds s).contains p.song_id))

/-- Number of non-played queue rows. -/
def pendingCount (s : State) : Nat :=
  (s.queue.filter (fun q => !q.played)).length

/-- The auto-fill scheduler tick.  `ORDER BY RANDOM() LIMIT 1` is modelled
by an oracle index `k`: the chosen row is `eligible[k % eligible.length]`,
which for uniformly distributed `k` is uniform over the eligible subset.
If the pending queue is non-empty, or no fallback entry is eligible, the
tick is a no-op. -/
def autoFillQueue (now : Nat) (k : Nat) (s : State) : State :=
  if pendingCount s ≠ 0 then s
  else
    let elig := eligibleFallback s
    if h : elig.length = 0 then s
    else
      let chosen := elig.get ⟨k % elig.length, Nat.mod_lt _ (Nat.pos_of_ne_zero h)⟩
      let row : QueueRow :=
        ⟨s.nextQueueId, chosen.song_id, chosen.title, chosen.artist,
          chosen.duration, chosen.thumbnail, now / 1000, false⟩
      { s with
        queue := s.queue ++ [row]
        nextQueueId := s.nextQueueId + 1 }

/-- Models `GET /api/search` result filtering: when explicit content is not
allowed, explicit songs are dropped; at most 10 results are returned. -/
def searchResults (explicitAllowed : Bool) (songs : List Song) : List Song :=
  (if explicitAllowed then songs
   else songs.filter (fun sg => !sg.explicit)).take 10

/-- Stable insertion (before the first row with key `≥`) used to model
`ORDER BY requested_at ASC`. -/
def insertByTime (r : QueueRow) : List QueueRow → List QueueRow
  | [] => [r]
  | x :: xs =>
    if r.requested_at ≤ x.requested_at then r :: x :: xs
    else x :: insertByTime r xs

/-- Stable sort by `requested_at`. -/
def sortByTime : List QueueRow → List QueueRow
  | [] => []
  | x :: xs => insertByTime x (sortByTime xs)

/-- Models `GET /api/queue`: the non-played rows, `ORDER BY requested_at ASC`
(ties resolved by physical row order). -/
def listPending (s : State) : List QueueRow :=
  sortByTime (s.queue.filter (fun q => !q.played))

/-- Models `DELETE /api/cooldown`: clears one identity's cooldown row. -/
def clearCooldownFor (ip : String) (s : State) : State :=
  { s with user_cooldowns := s.user_cooldowns.filter (fun c => !(c.ip == ip)) }

/-- Models `DELETE /api/cooldowns/all`. -/
def clearAllCooldowns (s : State) : State :=
  { s with user_cooldowns := [] }

/-- Models `POST /api/default-playlist`: validates the song fields exactly like the
request path, then inserts a fallback-playlist row. -/
def addDefaultPlaylist (song : Option Song) (s : State) : State :=
  match song with
  | none => s
  | some sg =>
    if !(validSong sg) then s
    else
      let row : PlaylistRow :=
        ⟨s.nextPlaylistId, sg.sid, sg.title, sg.artist, sg.duration,
          sg.thumbnail⟩
      { s with
        default_playlist := s.default_playlist ++ [row]
        nextPlaylistId := s.nextPlaylistId + 1 }

/-- Models `DELETE /api/default-playlist/:id`. -/
def removeDefaultPlaylist (pid : Nat) (s : State) : State :=
  { s with default_playlist := s.default_playlist.filter (fun p => !(p.id == pid)) }

/-- One externally triggered operation of the engine: an HTTP request, a
scheduler tick, or the periodic cleanup sweep.  Timed events carry the wall
clock (ms) at which they run. -/
inductive Event where
  | submit (now : Nat) (ip : String) (song : Option Song)
  | tick (now : Nat) (k : Nat)
  | played (now : Nat) (qid : Nat)
  | removeReq (qid : Nat)
  | clearPending
  | setSettings (inp : Settings)
  | cleanSweep (now : Nat)
  | cooldownClear (ip : String)
  | cooldownClearAll
  | addDefault (song : Option Song)
  | removeDefault (pid : Nat)

/-- State transition of a single event. -/
def applyEvent (s : State) : Event → State
  | .submit now ip song => (postRequest now ip song s).2
  | .tick now k => autoFillQueue now k s
  | .played now qid => (markPlayed now qid s).2
  | .removeReq qid => (removeFromQueue qid s).2
  | .clearPending => clearQueue s
  | .setSettings inp => updateSettings inp s
  | .cleanSweep now => cleanRecentlyPlayed now s
  | .cooldownClear ip => clearCooldownFor ip s
  | .cooldownClearAll => clearAllCooldowns s
  | .addDefault song => addDefaultPlaylist song s
  | .removeDefault pid => removeDefaultPlaylist pid s

/-- Run a trace of events. -/
def run (s : State) : List Event → State
  | [] => s
  | e :: es => run (applyEvent s e) es

/-- The wall-clock time of a timed event. -/
def Event.time : Event → Option Nat
  | .submit now _ _ => some now
  | .tick now _ => some now
  | .played now _ => some now
  | .cleanSweep now => some now
  | _ => none

/-- A trace is chronological when the timed events carry nondecreasing
clocks, starting at or after `t`. -/
def chrono : Nat → List Event → Bool
  | _, [] => true
  | t, e :: es =>
    match e.time with
    | some te => decide (t ≤ te) && chrono te es
    | none => chrono t es

/-- Whether a request outcome is the success outcome. -/
def isAccepted : ReqResult → Bool
  | .accepted _ => true
  | _ => false

/-! ## Concrete fixtures used by witnesses and counterexamples -/

/-- A well-formed, non-explicit song with the given external id. -/
def mkSong (i : String) : Song := ⟨i, "t", "a", "3:00", none, false⟩

/-- Four accepted submissions from identity `u`, spaced 30 s apart. -/
def fourState : State :=
  run initialState
    [.submit 1767268800000 "u" (some (mkSong "1")),
     .submit 1767268830000 "u" (some (mkSong "2")),
     .submit 1767268860000 "u" (some (mkSong "3")),
     .submit 1767268890000 "u" (some (mkSong "4"))]

/-- Five accepted submissions from identity `u`, spaced 30 s apart. -/
def fiveState : State :=
  run fourState [.submit 1767268920000 "u" (some (mkSong "5"))]

/-- One accepted submission, still pending. -/
def pendingOneState : State :=
  run initialState [.submit 1767268700000 "10.0.0.1" (some (mkSong "s8"))]

/-- One accepted submission that was then marked played at
2026-01-01 12:00:00 UTC. -/
def playedOnceState : State :=
  run pendingOneState [.played 1767268800000 1]

/-- Empty queue with a two-entry fallback playlist. -/
def fallbackState : State :=
  run initialState
    [.addDefault (some (mkSong "f1")), .addDefault (some (mkSong "f2"))]

/-- Queue invariant carried through a chronological trace whose clock has
reached `t` (ms): every stored `requested_at` (seconds) is at most `t / 1000`,
the physical queue order is already nondecreasing in `requested_at`, and no
`song_id` repeats among the non-played rows. -/
def InvQ (t : Nat) (s : State) : Prop :=
  (∀ r ∈ s.queue, r.requested_at ≤ t / 1000) ∧
  List.Pairwise (fun a b : QueueRow => a.requested_at ≤ b.requested_at)
    s.queue ∧
  (pendingIds s).Nodup

/-! ## Branch lemmas for the request handler -/

theorem postRequest_noBody (now : Nat) (ip : String) (s : State) :
    postRequest now ip none s = (.invalidSong, s) := rfl

theorem postRequest_invalid (now : Nat) (ip : String) (sg : Song) (s : State)
    (hv : validSong sg = false) :
    postRequest now ip (some sg) s = (.invalidSong, s) := by
  simp [postRequest, hv]

theorem postRequest_quota (now : Nat) (ip : String) (sg : Song) (s : State)
    (hv : validSong sg = true) (h5 : 5 ≤ countNonPlayed ip s) :
    postRequest now ip (some sg) s = (.quotaExceeded, s) := by
  simp [postRequest, hv, h5]

theorem postRequest_cooldown (now : Nat) (ip : String) (sg : Song) (s : State)
    (hv : validSong sg = true) (h5 : countNonPlayed ip s < 5)
    (hc : checkCooldown now ip s = false) :
    postRequest now ip (some sg) s = (.cooldownActive, s) := by
  simp [postRequest, hv, Nat.not_le.mpr h5, hc]

theorem postRequest_dup (now : Nat) (ip : String) (sg : Song) (s : State)
    (hv : validSong sg = true) (h5 : countNonPlayed ip s < 5)
    (hc : checkCooldown now ip s = true) (hd : dupPending sg.sid s = true) :
    postRequest now ip (some sg) s = (.duplicateInQueue, s) := by
  simp [postRequest, hv, Nat.not_le.mpr h5, hc, hd]

theorem postRequest_recent (now : Nat) (ip : String) (sg : Song) (s : State)
    (hv : validSong sg = true) (h5 : countNonPlayed ip s < 5)
    (hc : checkCooldown now ip s = true) (hd : dupPending sg.sid s = false)
    (hr : recentHit sg.sid (cleanRecentlyPlayed now s) = true) :
    postRequest now ip (some sg) s =
      (.recentlyPlayedHit, cleanRecentlyPlayed now s) := by
  simp [postRequest, hv, Nat.not_le.mpr h5, hc, hd, hr]

theorem postRequest_accept (now : Nat) (ip : String) (sg : Song) (s : State)
    (hv : validSong sg = true) (h5 : countNonPlayed ip s < 5)
    (hc : checkCooldown now ip s = true) (hd : dupPending sg.sid s = false)
    (hr : recentHit sg.sid (cleanRecentlyPlayed now s) = false) :
    postRequest now ip (some sg) s =
      acceptNewRequest now ip sg (cleanRecentlyPlayed now s) := by
  simp [postRequest, hv, Nat.not_le.mpr h5, hc, hd, hr]

/-- Any run of the handler hits exactly one of the six branch lemmas. -/
theorem postRequest_branches (now : Nat) (ip : String) (sg : Song) (s : State) :
    (validSong sg = false ∧
      postRequest now ip (some sg) s = (.invalidSong, s)) ∨
    (validSong sg = true ∧ 5 ≤ countNonPlayed ip s ∧
      postRequest now ip (some sg) s = (.quotaExceeded, s)) ∨
    (validSong sg = true ∧ countNonPlayed ip s < 5 ∧
      checkCooldown now ip s = false ∧
      postRequest now ip (some sg) s = (.cooldownActive, s)) ∨
    (validSong sg = true ∧ countNonPlayed ip s < 5 ∧
      checkCooldown now ip s = true ∧ dupPending sg.sid s = true ∧
      postRequest now ip (some sg) s = (.duplicateInQueue, s)) ∨
    (validSong sg = true ∧ countNonPlayed ip s < 5 ∧
      checkCooldown now ip s = true ∧ dupPending sg.sid s = false ∧
      recentHit sg.sid (cleanRecentlyPlayed now s) = true ∧
      postRequest now ip (some sg) s =
        (.recentlyPlayedHit, cleanRecentlyPlayed now s)) ∨
    (validSong sg = true ∧ countNonPlayed ip s < 5 ∧
      checkCooldown now ip s = true ∧ dupPending sg.sid s = false ∧
      recentHit sg.sid (cleanRecentlyPlayed now s) = false ∧
      postRequest now ip (some sg) s =
        acceptNewRequest now ip sg (cleanRecentlyPlayed now s)) := by
  by_cases hv : validSong sg = true
  · by_cases h5 : 5 ≤ countNonPlayed ip s
    · exact Or.inr (Or.inl ⟨hv, h5, postRequest_quota now ip sg s hv h5⟩)
    · have h5' := Nat.lt_of_not_le h5
      by_cases hc : checkCooldown now ip s = true
      · by_cases hd : dupPending sg.sid s = true
        · exact Or.inr (Or.inr (Or.inr (Or.inl
            ⟨hv, h5', hc, hd, postRequest_dup now ip sg s hv h5' hc hd⟩)))
        · have hd' := Bool.eq_false_iff.mpr hd
          by_cases hr : recentHit sg.sid (cleanRecentlyPlayed now s) = true
          · exact Or.inr (Or.inr (Or.inr (Or.inr (Or.inl
              ⟨hv, h5', hc, hd', hr,
                postRequest_recent now ip sg s hv h5' hc hd' hr⟩))))
          · have hr' := Bool.eq_false_iff.mpr hr
            exact Or.inr (Or.inr (Or.inr (Or.inr (Or.inr
              ⟨hv, h5', hc, hd', hr',
                postRequest_accept now ip sg s hv h5' hc hd' hr'⟩))))
      · have hc' := Bool.eq_false_iff.mpr hc
        exact Or.inr (Or.inr (Or.inl
          ⟨hv, h5', hc', postRequest_cooldown now ip sg s hv h5' hc'⟩))
  · have hv' := Bool.eq_false_iff.mpr hv
    exact Or.inl ⟨hv', postRequest_invalid now ip sg s hv'⟩

/-! ## C10: rejections do not touch the queue, attribution, or cooldowns -/

/-- Claim C10: For every submission that is rejected (invalid data, quota,
cooldown, duplicate-in-queue, or recently-played), no queue row is inserted,
no `user_requests` attribution row is created, and the requester's cooldown
timestamp is not updated: the cooldown is recorded only on accepted
requests. -/
theorem c10_rejection_leaves_store (now : Nat) (ip : String)
    (song : Option Song) (s : State)
    (h : isAccepted (postRequest now ip song s).1 = false) :
    (postRequest now ip song s).2.queue = s.queue ∧
    (postRequest now ip song s).2.user_requests = s.user_requests ∧
    (postRequest now ip song s).2.user_cooldowns = s.user_cooldowns := by
  match song with
  | none => exact ⟨rfl, rfl, rfl⟩
  | some sg =>
    rcases postRequest_branches now ip sg s with
      ⟨_, he⟩ | ⟨_, _, he⟩ | ⟨_, _, _, he⟩ | ⟨_, _, _, _, he⟩ |
      ⟨_, _, _, _, _, he⟩ | ⟨_, _, _, _, _, he⟩ <;> rw [he]
    · exact ⟨rfl, rfl, rfl⟩
    · exact ⟨rfl, rfl, rfl⟩
    · exact ⟨rfl, rfl, rfl⟩
    · exact ⟨rfl, rfl, rfl⟩
    · exact ⟨rfl, rfl, rfl⟩
    · rw [he] at h
      simp [acceptNewRequest, isAccepted] at h

/-- Witness for C10 at a concrete rejected submission (a malformed body). -/
theorem c10_rejection_leaves_store_witness :
    (postRequest 1767268800000 "10.0.0.1" none initialState).2.queue =
        initialState.queue ∧
    (postRequest 1767268800000 "10.0.0.1" none initialState).2.user_requests =
        initialState.user_requests ∧
    (postRequest 1767268800000 "10.0.0.1" none initialState).2.user_cooldowns =
        initialState.user_cooldowns :=
  c10_rejection_leaves_store 1767268800000 "10.0.0.1" none initialState
    (by decide)

/-! ## C9: the cooldown rejection carries a fixed message -/

/-- Counterexample for C9 as stated: two cooldown rejections whose remaining
wait times differ (12 s vs 5 s) produce byte-identical HTTP responses, so
the response does not report the remaining seconds. -/
theorem c9_remaining_not_reported_cex :
    (postRequest 1767268818000 "10.0.0.7"
        (some ⟨"b1", "Beta", "B", "3:00", none, false⟩)
        (postRequest 1767268800000 "10.0.0.7"
          (some ⟨"a1", "Alpha", "A", "3:00", none, false⟩) initialState).2).1 =
      .cooldownActive ∧
    (postRequest 1767268825000 "10.0.0.7"
        (some ⟨"b1", "Beta", "B", "3:00", none, false⟩)
        (postRequest 1767268800000 "10.0.0.7"
          (some ⟨"a1", "Alpha", "A", "3:00", none, false⟩) initialState).2).1 =
      .cooldownActive ∧
    (30000 - (1767268818000 - 1767268800000)) / 1000 = 12 ∧
    (30000 - (1767268825000 - 1767268800000)) / 1000 = 5 ∧
    respOf .cooldownActive = (429, "Please wait 30 seconds between requests") := by
  decide

/-- Claim C9, amended: Every CooldownActive rejection is answered with status
429 and the fixed message "Please wait 30 seconds between requests" — which
no other outcome uses, so the rejection kind is distinguishable — but the
response does not contain the computed remaining wait time. -/
theorem c9_cooldown_response_fixed_message (res : ReqResult) :
    respOf res = (429, "Please wait 30 seconds between requests") ↔
      res = .cooldownActive := by
  cases res <;> simp [respOf]

/-! ## C7: the explicit flag only filters search results -/

/-- Counterexample for C7 as stated: with `explicit_allowed = false`, a
submission of a song flagged explicit is not rejected with ExplicitBlocked;
the handler performs no explicit-content check and enqueues it. -/
theorem c7_explicit_submission_accepted_cex :
    (run initialState
        [Event.setSettings ⟨"general", false, "[]", "", "", ""⟩]).settings.explicit_allowed
        = false ∧
    (postRequest 1767300000000 "10.9.9.9"
        (some ⟨"x9", "Xplicit", "XA", "2:30", none, true⟩)
        (run initialState
          [Event.setSettings ⟨"general", false, "[]", "", "", ""⟩])).1 =
      .accepted 1 := by
  decide

/-- Claim C7, amended: When `explicit_allowed` is false, explicit songs are
filtered out of search results (never returned to the requester); the
settings update alters neither the queue nor the request attributions; and
the submission handler performs no explicit-content check at all — its
outcome and resulting state are independent of the song's explicit flag. -/
theorem c7_explicit_only_filters_search (songs : List Song) (sg : Song)
    (inp : Settings) (s : State) (now : Nat) (ip : String) (sg2 : Song)
    (b : Bool) (hmem : sg ∈ searchResults false songs) :
    sg.explicit = false ∧
    (updateSettings inp s).queue = s.queue ∧
    (updateSettings inp s).user_requests = s.user_requests ∧
    postRequest now ip (some { sg2 with explicit := b }) s =
      postRequest now ip (some sg2) s := by
  refine ⟨?_, rfl, rfl, ?_⟩
  · have h1 : sg ∈ songs.filter (fun x => !x.explicit) :=
      List.mem_of_mem_take (by simpa [searchResults] using hmem)
    have h2 := (List.mem_filter.mp h1).2
    simpa using h2
  · cases sg2
    rfl

/-- Witness for C7 at a concrete search pool and submission. -/
theorem c7_explicit_only_filters_search_witness :
    (⟨"a1", "Alpha", "A", "3:00", none, false⟩ : Song).explicit = false ∧
    (updateSettings ⟨"g", true, "", "", "", ""⟩ initialState).queue =
      initialState.queue ∧
    (updateSettings ⟨"g", true, "", "", "", ""⟩ initialState).user_requests =
      initialState.user_requests ∧
    postRequest 0 "1.1.1.1"
        (some { (⟨"z1", "Zed", "Z", "1:00", none, false⟩ : Song) with
                  explicit := true }) initialState =
      postRequest 0 "1.1.1.1"
        (some ⟨"z1", "Zed", "Z", "1:00", none, false⟩) initialState :=
  c7_explicit_only_filters_search
    [⟨"a1", "Alpha", "A", "3:00", none, false⟩]
    ⟨"a1", "Alpha", "A", "3:00", none, false⟩
    ⟨"g", true, "", "", "", ""⟩ initialState 0 "1.1.1.1"
    ⟨"z1", "Zed", "Z", "1:00", none, false⟩ true (by decide)

/-! ## C8: markPlayed -/

/-- Counterexample for C8 as stated: a queue id whose request is already
played is not rejected with NotFoundError — `markPlayed` succeeds again and
inserts a second copy into `recently_played`. -/
theorem c8_already_played_succeeds_cex :
    (run initialState
        [Event.submit 1767268700000 "10.0.0.1"
           (some ⟨"s8", "Oldie", "O", "3:10", none, false⟩),
         Event.played 1767268800000 1]).queue.map (fun q => (q.id, q.played)) =
      [(1, true)] ∧
    (markPlayed 1767268900000 1
        (run initialState
          [Event.submit 1767268700000 "10.0.0.1"
             (some ⟨"s8", "Oldie", "O", "3:10", none, false⟩),
           Event.played 1767268800000 1])).1 = true ∧
    (markPlayed 1767268900000 1
        (run initialState
          [Event.submit 1767268700000 "10.0.0.1"
             (some ⟨"s8", "Oldie", "O", "3:10", none, false⟩),
           Event.played 1767268800000 1])).2.recently_played.length = 2 := by
  decide

/-- Claim C8, amended: `markPlayed(id)` fails with NotFoundError iff no queue
row carries the id (an already-played id is found and processed again, its
copy re-inserted into RecentlyPlayed); failure leaves the store unchanged;
on success it sets `played = true` for the id and appends a copy of the
request (song id, title, artist) to RecentlyPlayed with `played_at = now`. -/
theorem c8_markPlayed_spec (now qid : Nat) (s : State) :
    ((markPlayed now qid s).1 = false ↔ ∀ q ∈ s.queue, q.id ≠ qid) ∧
    ((markPlayed now qid s).1 = false → (markPlayed now qid s).2 = s) ∧
    (∀ q, s.queue.find? (fun r => r.id == qid) = some q →
      (markPlayed now qid s).2.recently_played =
        s.recently_played ++ [⟨s.nextRpId, q.song_id, q.title, q.artist, now⟩] ∧
      ∀ r ∈ (markPlayed now qid s).2.queue, r.id = qid → r.played = true) := by
  refine ⟨?_, ?_, ?_⟩
  · constructor
    · intro hf
      have hnone : s.queue.find? (fun r => r.id == qid) = none := by
        cases hfind : s.queue.find? (fun r => r.id == qid) with
        | none => rfl
        | some q => rw [markPlayed, hfind] at hf; cases hf
      intro q hq
      have := List.find?_eq_none.mp hnone q hq
      simpa using this
    · intro hall
      have hnone : s.queue.find? (fun r => r.id == qid) = none :=
        List.find?_eq_none.mpr (fun q hq => by simpa using hall q hq)
      rw [markPlayed, hnone]
  · intro hf
    cases hfind : s.queue.find? (fun r => r.id == qid) with
    | none => rw [markPlayed, hfind]
    | some q => rw [markPlayed, hfind] at hf; cases hf
  · intro q hfind
    constructor
    · rw [markPlayed, hfind]
    · intro r hr hid
      rw [markPlayed, hfind] at hr
      simp only at hr
      rcases List.mem_map.mp hr with ⟨r0, _, heq⟩
      by_cases h0 : r0.id == qid
      · rw [← heq]; simp [h0]
      · rw [← heq] at hid ⊢
        simp [h0] at hid ⊢
        exact absurd hid (by simpa using h0)

/-! ## C2: the 5-request cap -/

theorem length_filter_mono {α : Type} (l : List α) (p q : α → Bool)
    (h : ∀ a ∈ l, q a = true → p a = true) :
    (l.filter q).length ≤ (l.filter p).length := by
  induction l with
  | nil => simp
  | cons x xs ih =>
    have ih' := ih (fun a ha => h a (List.mem_cons_of_mem x ha))
    by_cases hq : q x = true
    · have hp := h x (List.mem_cons_self x xs) hq
      simp [List.filter_cons, hq, hp]
      exact ih'
    · have hq' := Bool.eq_false_iff.mpr hq
      by_cases hp : p x = true
      · simp [List.filter_cons, hq', hp]
        exact Nat.le_succ_of_le ih'
      · simp [List.filter_cons, hq', Bool.eq_false_iff.mpr hp]
        exact ih'

theorem length_filter_strict {α : Type} (l : List α) (p q : α → Bool)
    (h : ∀ a ∈ l, q a = true → p a = true) (a0 : α) (h0 : a0 ∈ l)
    (hp : p a0 = true) (hq : q a0 = false) :
    (l.filter q).length < (l.filter p).length := by
  induction l with
  | nil => cases h0
  | cons x xs ih =>
    have hmono := length_filter_mono xs p q
      (fun a ha => h a (List.mem_cons_of_mem x ha))
    rcases List.mem_cons.mp h0 with h0x | h0xs
    · subst h0x
      simp [List.filter_cons, hp, hq.symm ▸ (rfl : q a0 = q a0), hq]
      exact Nat.lt_succ_of_le hmono
    · have ih' := ih (fun a ha => h a (List.mem_cons_of_mem x ha)) h0xs
      by_cases hqx : q x = true
      · have hpx := h x (List.mem_cons_self x xs) hqx
        simp [List.filter_cons, hqx, hpx]
        exact ih'
      · have hqx' := Bool.eq_false_iff.mpr hqx
        by_cases hpx : p x = true
        · simp [List.filter_cons, hqx', hpx]
          exact Nat.lt_succ_of_lt ih'
        · simp [List.filter_cons, hqx', Bool.eq_false_iff.mpr hpx]
          exact ih'

/-- The operation `markPlayed` never touches the attribution table. -/
theorem markPlayed_user_requests (now qid : Nat) (s : State) :
    (markPlayed now qid s).2.user_requests = s.user_requests := by
  cases hfind : s.queue.find? (fun r => r.id == qid) with
  | none => rw [markPlayed, hfind]
  | some q => rw [markPlayed, hfind]

/-- When some queue row carries the id, `markPlayed` maps the queue,
setting `played` on every row with that id. -/
theorem markPlayed_queue_of_found (now qid : Nat) (s : State) (q : QueueRow)
    (hfind : s.queue.find? (fun r => r.id == qid) = some q) :
    (markPlayed now qid s).2.queue =
      s.queue.map (fun r => if r.id == qid then { r with played := true } else r) := by
  rw [markPlayed, hfind]

/-- Marking a pending attributed request played strictly decreases the
requester's non-played count. -/
theorem countNonPlayed_markPlayed_lt (s : State) (tplay : Nat) (ip : String)
    (ur : UserRequestRow) (hur : ur ∈ s.user_requests) (hip : ur.ip = ip)
    (q : QueueRow) (hq : q ∈ s.queue) (hqid : q.id = ur.queue_id)
    (hnp : q.played = false) :
    countNonPlayed ip (markPlayed tplay q.id s).2 < countNonPlayed ip s := by
  have hfound : s.queue.find? (fun r => r.id == q.id) ≠ none := by
    intro hnone
    have := List.find?_eq_none.mp hnone q hq
    simp at this
  cases hfind : s.queue.find? (fun r => r.id == q.id) with
  | none => exact absurd hfind hfound
  | some q' =>
    have hqq : (markPlayed tplay q.id s).2.queue =
        s.queue.map (fun r => if r.id == q.id then { r with played := true } else r) :=
      markPlayed_queue_of_found tplay q.id s q' hfind
    unfold countNonPlayed
    rw [markPlayed_user_requests, hqq]
    apply length_filter_strict
    · intro a _ hqa
      rw [Bool.and_eq_true] at hqa ⊢
      obtain ⟨hip', hany⟩ := hqa
      refine ⟨hip', ?_⟩
      rcases List.any_eq_true.mp hany with ⟨r, hrmem, hrprop⟩
      rcases List.mem_map.mp hrmem with ⟨r0, hr0, hr0eq⟩
      by_cases hid : (r0.id == q.id) = true
      · rw [← hr0eq] at hrprop
        simp [hid] at hrprop
      · rw [← hr0eq] at hrprop
        simp only [if_neg hid] at hrprop
        exact List.any_eq_true.mpr ⟨r0, hr0, hrprop⟩
    · exact hur
    · rw [Bool.and_eq_true]
      refine ⟨by simp [hip], List.any_eq_true.mpr ⟨q, hq, ?_⟩⟩
      simp [hqid, hnp]
    · rw [← Bool.not_eq_true, Bool.and_eq_true]
      rintro ⟨_, hany⟩
      rcases List.any_eq_true.mp hany with ⟨r, hrmem, hrprop⟩
      rcases List.mem_map.mp hrmem with ⟨r0, hr0, hr0eq⟩
      by_cases hid : (r0.id == q.id) = true
      · rw [← hr0eq] at hrprop
        simp [hid] at hrprop
      · rw [← hr0eq] at hrprop
        simp only [if_neg hid] at hrprop
        rw [Bool.and_eq_true] at hrprop
        obtain ⟨hideq, _⟩ := hrprop
        have : r0.id = ur.queue_id := by simpa using hideq
        exact hid (by simp [this, ← hqid])

/-- Claim C2: A requester identity with exactly 5 non-played attributed
requests has any further (well-formed) submission rejected with
QuotaExceeded and the store unchanged; after one of those requests is
marked played the count drops below 5, and a new submission from the same
identity is accepted when the remaining checks (cooldown, live-duplicate,
recent-play) pass. -/
theorem c2_quota_cap (s : State) (now tplay t2 : Nat) (ip : String)
    (sg sg2 : Song) (ur : UserRequestRow) (q : QueueRow)
    (hv : validSong sg = true) (h5 : countNonPlayed ip s = 5)
    (hur : ur ∈ s.user_requests) (hip : ur.ip = ip)
    (hq : q ∈ s.queue) (hqid : q.id = ur.queue_id) (hnp : q.played = false)
    (hv2 : validSong sg2 = true)
    (hc2 : checkCooldown t2 ip (markPlayed tplay q.id s).2 = true)
    (hd2 : dupPending sg2.sid (markPlayed tplay q.id s).2 = false)
    (hr2 : recentHit sg2.sid
      (cleanRecentlyPlayed t2 (markPlayed tplay q.id s).2) = false) :
    postRequest now ip (some sg) s = (.quotaExceeded, s) ∧
    countNonPlayed ip (markPlayed tplay q.id s).2 < 5 ∧
    (postRequest t2 ip (some sg2) (markPlayed tplay q.id s).2).1 =
      .accepted (markPlayed tplay q.id s).2.nextQueueId := by
  have hlt : countNonPlayed ip (markPlayed tplay q.id s).2 < 5 := by
    have := countNonPlayed_markPlayed_lt s tplay ip ur hur hip q hq hqid hnp
    omega
  refine ⟨postRequest_quota now ip sg s hv (by omega), hlt, ?_⟩
  rw [postRequest_accept t2 ip sg2 (markPlayed tplay q.id s).2 hv2 hlt hc2 hd2 hr2]
  rfl

/-- Witness for C2: identity `u` holds 5 pending requests, a 6th submission
is quota-rejected; after marking request 1 played the count drops and a new
submission is accepted. -/
theorem c2_quota_cap_witness :
    postRequest 1767268921000 "u" (some (mkSong "6")) fiveState =
      (.quotaExceeded, fiveState) ∧
    countNonPlayed "u" (markPlayed 1767268950000 1 fiveState).2 < 5 ∧
    (postRequest 1767268990000 "u" (some (mkSong "6"))
        (markPlayed 1767268950000 1 fiveState).2).1 =
      .accepted (markPlayed 1767268950000 1 fiveState).2.nextQueueId :=
  c2_quota_cap fiveState 1767268921000 1767268950000 1767268990000 "u"
    (mkSong "6") (mkSong "6") ⟨1, "u", 1⟩
    ⟨1, "1", "t", "a", "3:00", none, 1767268800, false⟩
    (by decide) (by decide) (by decide) (by decide) (by decide) (by decide)
    (by decide) (by decide) (by decide) (by decide) (by decide)

/-! ## C3: the 30-second cooldown window -/

/-- After an upsert, the cooldown lookup finds the freshly written row. -/
theorem find_upsertCooldown (ip : String) (t : Nat) (l : List CooldownRow) :
    (upsertCooldown ip t l).find? (fun c => c.ip == ip) =
      some ⟨ip, t⟩ := by
  induction l with
  | nil => simp [upsertCooldown]
  | cons c cs ih =>
    by_cases h : (c.ip == ip) = true
    · simp [upsertCooldown, h]
    · rw [upsertCooldown, if_neg h,
        List.find?_cons_of_neg (upsertCooldown ip t cs) h]
      exact ih

/-- A submission is accepted only via the final insert branch. -/
theorem postRequest_accepted_inv (now : Nat) (ip : String) (sg : Song)
    (s : State) (qid : Nat)
    (h : (postRequest now ip (some sg) s).1 = .accepted qid) :
    postRequest now ip (some sg) s =
      acceptNewRequest now ip sg (cleanRecentlyPlayed now s) := by
  rcases postRequest_branches now ip sg s with
    ⟨_, he⟩ | ⟨_, _, he⟩ | ⟨_, _, _, he⟩ | ⟨_, _, _, _, he⟩ |
    ⟨_, _, _, _, _, he⟩ | ⟨_, _, _, _, _, he⟩
  · rw [he] at h; cases h
  · rw [he] at h; cases h
  · rw [he] at h; cases h
  · rw [he] at h; cases h
  · rw [he] at h; cases h
  · exact he

/-- After an accepted submission, the requester's cooldown check is exactly
the 30-second comparison against that submission's time. -/
theorem checkCooldown_after_accept (now1 now2 : Nat) (ip : String) (sg : Song)
    (s : State) (qid : Nat)
    (hacc : (postRequest now1 ip (some sg) s).1 = .accepted qid) :
    checkCooldown now2 ip (postRequest now1 ip (some sg) s).2 =
      decide (30000 ≤ now2 - now1) := by
  rw [postRequest_accepted_inv now1 ip sg s qid hacc]
  unfold checkCooldown acceptNewRequest
  rw [find_upsertCooldown]

/-- Claim C3, amended: After an accepted submission from an identity, a second
well-formed submission from the same identity less than 30 s later is
rejected with CooldownActive provided the identity is below the 5-request
cap (the cap check runs first, so at the cap the rejection is
QuotaExceeded instead); a second submission 30 s or more later is accepted
whenever the remaining checks (cap, live-duplicate, recent-play) pass. -/
theorem c3_cooldown_window (s : State) (ip : String) (sg1 sg2 : Song)
    (now1 now2 qid : Nat)
    (hacc : (postRequest now1 ip (some sg1) s).1 = .accepted qid)
    (hv2 : validSong sg2 = true) :
    (now2 - now1 < 30000 →
      countNonPlayed ip (postRequest now1 ip (some sg1) s).2 < 5 →
      postRequest now2 ip (some sg2) (postRequest now1 ip (some sg1) s).2 =
        (.cooldownActive, (postRequest now1 ip (some sg1) s).2)) ∧
    (30000 ≤ now2 - now1 →
      countNonPlayed ip (postRequest now1 ip (some sg1) s).2 < 5 →
      dupPending sg2.sid (postRequest now1 ip (some sg1) s).2 = false →
      recentHit sg2.sid
        (cleanRecentlyPlayed now2 (postRequest now1 ip (some sg1) s).2) = false →
      (postRequest now2 ip (some sg2) (postRequest now1 ip (some sg1) s).2).1 =
        .accepted (postRequest now1 ip (some sg1) s).2.nextQueueId) := by
  constructor
  · intro hlt h5
    apply postRequest_cooldown _ _ _ _ hv2 h5
    rw [checkCooldown_after_accept now1 now2 ip sg1 s qid hacc]
    simp [Nat.not_le.mpr hlt]
  · intro hge h5 hd hr
    rw [postRequest_accept _ _ _ _ hv2 h5 ?_ hd hr]
    · rfl
    · rw [checkCooldown_after_accept now1 now2 ip sg1 s qid hacc]
      simpa using hge

/-- Witness for C3: a resubmission 10 s after acceptance is cooldown-blocked;
one 40 s after is accepted. -/
theorem c3_cooldown_window_witness :
    postRequest 1767270010000 "w" (some (mkSong "k2"))
        (postRequest 1767270000000 "w" (some (mkSong "k1")) initialState).2 =
      (.cooldownActive,
        (postRequest 1767270000000 "w" (some (mkSong "k1")) initialState).2) ∧
    (postRequest 1767270040000 "w" (some (mkSong "k2"))
        (postRequest 1767270000000 "w" (some (mkSong "k1")) initialState).2).1 =
      .accepted (postRequest 1767270000000 "w"
        (some (mkSong "k1")) initialState).2.nextQueueId :=
  ⟨(c3_cooldown_window initialState "w" (mkSong "k1") (mkSong "k2")
      1767270000000 1767270010000 1 (by decide) (by decide)).1
      (by decide) (by decide),
   (c3_cooldown_window initialState "w" (mkSong "k1") (mkSong "k2")
      1767270000000 1767270040000 1 (by decide) (by decide)).2
      (by decide) (by decide) (by decide) (by decide)⟩

/-- Counterexample for C3 as stated: the first submission is accepted while
the identity already holds 4 pending requests; a second submission 5 s later
is rejected, but with QuotaExceeded, not CooldownActive. -/
theorem c3_cap_masks_cooldown_cex :
    (postRequest 1767268920000 "u" (some (mkSong "5")) fourState).1 =
      .accepted 5 ∧
    1767268925000 - 1767268920000 < 30000 ∧
    (postRequest 1767268925000 "u" (some (mkSong "6"))
        (postRequest 1767268920000 "u" (some (mkSong "5")) fourState).2).1 =
      .quotaExceeded ∧
    ReqResult.quotaExceeded ≠ ReqResult.cooldownActive := by
  decide

/-! ## C4: the auto-fill scheduler tick -/

/-- Claim C4: A tick with a non-empty pending queue is a no-op; with an empty
pending queue and no eligible fallback entry it is a no-op (not an error);
with an empty pending queue and at least one fallback entry not in
RecentlyPlayed it appends exactly one new pending row whose song is drawn
from the eligible subset, and every eligible entry is reachable by some
draw of the random oracle (uniform support). -/
theorem c4_autofill_tick :
    (∀ s now k, 1 ≤ pendingCount s → autoFillQueue now k s = s) ∧
    (∀ s now k, pendingCount s = 0 → eligibleFallback s = [] →
      autoFillQueue now k s = s) ∧
    (∀ s now k, pendingCount s = 0 → eligibleFallback s ≠ [] →
      pendingCount (autoFillQueue now k s) = 1 ∧
      ∃ r, (autoFillQueue now k s).queue = s.queue ++ [r] ∧
        r.played = false ∧
        r.song_id ∈ (eligibleFallback s).map (fun p => p.song_id)) ∧
    (∀ s now, pendingCount s = 0 → ∀ p ∈ eligibleFallback s,
      ∃ k r, (autoFillQueue now k s).queue = s.queue ++ [r] ∧
        r.song_id = p.song_id ∧ r.played = false) := by
  have hbranch : ∀ s now k, pendingCount s = 0 → eligibleFallback s ≠ [] →
      ∀ (hlen : ¬(eligibleFallback s).length = 0),
      autoFillQueue now k s =
        { s with
          queue := s.queue ++
            [⟨s.nextQueueId,
              ((eligibleFallback s).get
                ⟨k % (eligibleFallback s).length,
                  Nat.mod_lt _ (Nat.pos_of_ne_zero hlen)⟩).song_id,
              ((eligibleFallback s).get
                ⟨k % (eligibleFallback s).length,
                  Nat.mod_lt _ (Nat.pos_of_ne_zero hlen)⟩).title,
              ((eligibleFallback s).get
                ⟨k % (eligibleFallback s).length,
                  Nat.mod_lt _ (Nat.pos_of_ne_zero hlen)⟩).artist,
              ((eligibleFallback s).get
                ⟨k % (eligibleFallback s).length,
                  Nat.mod_lt _ (Nat.pos_of_ne_zero hlen)⟩).duration,
              ((eligibleFallback s).get
                ⟨k % (eligibleFallback s).length,
                  Nat.mod_lt _ (Nat.pos_of_ne_zero hlen)⟩).thumbnail,
              now / 1000, false⟩]
          nextQueueId := s.nextQueueId + 1 } := by
    intro s now k h0 hne hlen
    rw [autoFillQueue, if_neg (by simp [h0]), dif_neg hlen]
  have hpend : ∀ s : State, pendingCount s = 0 →
      s.queue.filter (fun q => !q.played) = [] := by
    intro s h0
    exact List.length_eq_zero.mp h0
  refine ⟨?_, ?_, ?_, ?_⟩
  · intro s now k h1
    rw [autoFillQueue, if_pos (by omega)]
  · intro s now k h0 he
    rw [autoFillQueue, if_neg (by simp [h0]), dif_pos (by simp [he])]
  · intro s now k h0 hne
    have hlen : ¬(eligibleFallback s).length = 0 :=
      fun h => hne (List.length_eq_zero.mp h)
    rw [hbranch s now k h0 hne hlen]
    constructor
    · unfold pendingCount
      simp only [List.filter_append, hpend s h0]
      simp
    · refine ⟨_, rfl, rfl, ?_⟩
      exact List.mem_map.mpr ⟨_, List.get_mem _ _ _, rfl⟩
  · intro s now h0 p hp
    have hne : eligibleFallback s ≠ [] := by
      intro he; rw [he] at hp; cases hp
    have hlen : ¬(eligibleFallback s).length = 0 :=
      fun h => hne (List.length_eq_zero.mp h)
    rcases List.mem_iff_get.mp hp with ⟨i, hi⟩
    have hfin : (⟨i.val % (eligibleFallback s).length,
        Nat.mod_lt _ (Nat.pos_of_ne_zero hlen)⟩ :
          Fin (eligibleFallback s).length) = i :=
      Fin.ext (Nat.mod_eq_of_lt i.isLt)
    refine ⟨i.val,
      ⟨s.nextQueueId, p.song_id, p.title, p.artist, p.duration, p.thumbnail,
        now / 1000, false⟩, ?_, rfl, rfl⟩
    rw [hbranch s now i.val h0 hne hlen, hfin, hi]

/-- Witness for C4: no-op on a non-empty queue, no-op on an empty fallback
pool, exactly-one insert on an empty queue with a two-entry pool, and
reachability of a chosen pool entry. -/
theorem c4_autofill_tick_witness :
    autoFillQueue 1767269000000 0 fiveState = fiveState ∧
    autoFillQueue 1767269000000 0 initialState = initialState ∧
    (pendingCount (autoFillQueue 1767269000000 3 fallbackState) = 1 ∧
      ∃ r, (autoFillQueue 1767269000000 3 fallbackState).queue =
          fallbackState.queue ++ [r] ∧
        r.played = false ∧
        r.song_id ∈ (eligibleFallback fallbackState).map (fun p => p.song_id)) ∧
    (∃ k r, (autoFillQueue 1767269000000 k fallbackState).queue =
        fallbackState.queue ++ [r] ∧
      r.song_id = (⟨1, "f1", "t", "a", "3:00", none⟩ : PlaylistRow).song_id ∧
      r.played = false) :=
  ⟨c4_autofill_tick.1 fiveState 1767269000000 0 (by decide),
   c4_autofill_tick.2.1 initialState 1767269000000 0 (by decide) (by decide),
   c4_autofill_tick.2.2.1 fallbackState 1767269000000 3 (by decide) (by decide),
   c4_autofill_tick.2.2.2 fallbackState 1767269000000 (by decide)
     ⟨1, "f1", "t", "a", "3:00", none⟩ (by decide)⟩

/-! ## C6: the 1-hour retention window is broken by a format mismatch -/

/-- Claim C6, code bug: A song marked played at 2026-01-01 12:00:00 UTC and
resubmitted 40 s later — far inside the 1-hour window — is accepted, not
rejected as RecentlyPlayed: `cleanRecentlyPlayed` compares the stored
`CURRENT_TIMESTAMP` text `"2026-01-01 12:00:00"` against the JavaScript ISO
cutoff `"2026-01-01T11:00:40.000Z"`, and since `' ' < 'T'` the same-date
entry sorts below the cutoff and is purged immediately. -/
theorem c6_retention_bug_eval :
    playedOnceState.recently_played.map (fun r => (r.song_id, r.played_at)) =
      [("s8", 1767268800000)] ∧
    1767268840000 < 1767268800000 + 3600000 ∧
    fmtSqlite 1767268800000 = "2026-01-01 12:00:00" ∧
    fmtIso (1767268840000 - 3600000) = "2026-01-01T11:00:40.000Z" ∧
    sqlTextLt (fmtSqlite 1767268800000) (fmtIso (1767268840000 - 3600000)) =
      true ∧
    (cleanRecentlyPlayed 1767268840000 playedOnceState).recently_played = [] ∧
    (postRequest 1767268840000 "10.0.0.2" (some (mkSong "s8"))
        playedOnceState).1 = .accepted 2 := by
  decide

/-! ## C1: what the two producer paths guarantee at insertion time -/

/-- A song absent from the live-duplicate query is not among the pending
ids. -/
theorem not_mem_pendingIds_of_dupPending_false (sid : String) (s : State)
    (hd : dupPending sid s = false) : sid ∉ pendingIds s := by
  intro hmem
  rcases List.mem_map.mp hmem with ⟨q, hqf, hqe⟩
  have hq := List.mem_filter.mp hqf
  have : dupPending sid s = true :=
    List.any_eq_true.mpr ⟨q, hq.1, by simp [hqe, hq.2]⟩
  rw [hd] at this
  cases this

/-- A song absent from the recent-play query is not among the
recently-played ids. -/
theorem not_mem_rpIds_of_recentHit_false (sid : String) (s : State)
    (hr : recentHit sid s = false) : sid ∉ rpIds s := by
  intro hmem
  rcases List.mem_map.mp hmem with ⟨r, hrm, hre⟩
  have : recentHit sid s = true :=
    List.any_eq_true.mpr ⟨r, hrm, by simp [hre]⟩
  rw [hr] at this
  cases this

/-- Claim C1, amended: New queue rows are produced only by the submission
handler and the auto-fill tick.  A row the handler inserts passed the cap
check, the live-duplicate check against the pending queue, and the
recent-play check against the (just swept) RecentlyPlayed table; a row the
tick inserts required an empty pending queue (so the live-duplicate check
holds vacuously) and passed the recent-play exclusion.  The scheduler skips
the cooldown and cap checks, and neither path performs any explicit-content
check.  Every other operation only removes, updates in place, or leaves
queue rows. -/
theorem c1_insertion_admission :
    (∀ now ip song s r, r ∈ ((postRequest now ip song s).2).queue →
      r ∉ s.queue →
      countNonPlayed ip s < 5 ∧
      r.song_id ∉ pendingIds s ∧
      r.song_id ∉ rpIds (postRequest now ip song s).2) ∧
    (∀ now k s r, r ∈ (autoFillQueue now k s).queue → r ∉ s.queue →
      pendingIds s = [] ∧ r.song_id ∉ rpIds (autoFillQueue now k s)) ∧
    (∀ now qid s r, r ∈ ((markPlayed now qid s).2).queue →
      ∃ r0 ∈ s.queue, r0.id = r.id ∧ r0.song_id = r.song_id) ∧
    (∀ qid s r, r ∈ ((removeFromQueue qid s).2).queue → r ∈ s.queue) ∧
    (∀ s r, r ∈ (clearQueue s).queue → r ∈ s.queue) ∧
    (∀ inp s, (updateSettings inp s).queue = s.queue) ∧
    (∀ now s, (cleanRecentlyPlayed now s).queue = s.queue) ∧
    (∀ ip s, (clearCooldownFor ip s).queue = s.queue) ∧
    (∀ s, (clearAllCooldowns s).queue = s.queue) ∧
    (∀ song s, (addDefaultPlaylist song s).queue = s.queue) ∧
    (∀ pid s, (removeDefaultPlaylist pid s).queue = s.queue) := by
  refine ⟨?_, ?_, ?_, ?_, ?_, fun _ _ => rfl, fun _ _ => rfl, fun _ _ => rfl,
    fun _ => rfl, ?_, fun _ _ => rfl⟩
  · intro now ip song s r hmem hnew
    match song with
    | none => exact absurd hmem hnew
    | some sg =>
      rcases postRequest_branches now ip sg s with
        ⟨_, he⟩ | ⟨_, _, he⟩ | ⟨_, _, _, he⟩ | ⟨_, _, _, _, he⟩ |
        ⟨_, _, _, _, _, he⟩ | ⟨hv, h5, hc, hd, hr, he⟩
      · rw [he] at hmem; exact absurd hmem hnew
      · rw [he] at hmem; exact absurd hmem hnew
      · rw [he] at hmem; exact absurd hmem hnew
      · rw [he] at hmem; exact absurd hmem hnew
      · rw [he] at hmem; exact absurd hmem hnew
      · rw [he] at hmem ⊢
        rcases List.mem_append.mp hmem with hold | hnewrow
        · exact absurd hold hnew
        · have hrow : r = ⟨(cleanRecentlyPlayed now s).nextQueueId, sg.sid,
              sg.title, sg.artist, sg.duration, sg.thumbnail,
              now / 1000, false⟩ := by
            simpa using hnewrow
          refine ⟨h5, ?_, ?_⟩
          · rw [hrow]
            exact not_mem_pendingIds_of_dupPending_false sg.sid s hd
          · rw [hrow]
            exact not_mem_rpIds_of_recentHit_false sg.sid
              (cleanRecentlyPlayed now s) hr
  · intro now k s r hmem hnew
    by_cases h0 : pendingCount s = 0
    · have hpe : pendingIds s = [] := by
        unfold pendingIds
        rw [List.length_eq_zero.mp h0]
        rfl
      refine ⟨hpe, ?_⟩
      by_cases hlen : (eligibleFallback s).length = 0
      · rw [autoFillQueue, if_neg (by simp [h0]), dif_pos hlen] at hmem
        exact absurd hmem hnew
      · rw [autoFillQueue, if_neg (by simp [h0]), dif_neg hlen] at hmem ⊢
        rcases List.mem_append.mp hmem with hold | hnewrow
        · exact absurd hold hnew
        · have hchosen := List.get_mem (eligibleFallback s)
            (k % (eligibleFallback s).length)
            (Nat.mod_lt _ (Nat.pos_of_ne_zero hlen))
          have hcf := List.mem_filter.mp hchosen
          have hrow : r.song_id = ((eligibleFallback s).get
              ⟨k % (eligibleFallback s).length,
                Nat.mod_lt _ (Nat.pos_of_ne_zero hlen)⟩).song_id := by
            simp at hnewrow
            simp [hnewrow, List.get_eq_getElem]
          rw [hrow]
          intro hmemrp
          have hcontains : (rpIds s).contains (((eligibleFallback s).get
              ⟨k % (eligibleFallback s).length,
                Nat.mod_lt _ (Nat.pos_of_ne_zero hlen)⟩).song_id) = true :=
            List.elem_iff.mpr hmemrp
          have hnot := hcf.2
          rw [hcontains] at hnot
          cases hnot
    · rw [autoFillQueue, if_pos h0] at hmem
      exact absurd hmem hnew
  · intro now qid s r hmem
    cases hfind : s.queue.find? (fun x => x.id == qid) with
    | none =>
      rw [markPlayed, hfind] at hmem
      exact ⟨r, hmem, rfl, rfl⟩
    | some q =>
      rw [markPlayed, hfind] at hmem
      simp only at hmem
      rcases List.mem_map.mp hmem with ⟨r0, hr0, hr0e⟩
      by_cases hid : (r0.id == qid) = true
      · refine ⟨r0, hr0, ?_, ?_⟩ <;> rw [← hr0e] <;> simp [hid]
      · refine ⟨r0, hr0, ?_, ?_⟩ <;> rw [← hr0e] <;> simp [hid]
  · intro qid s r hmem
    exact List.mem_of_mem_filter hmem
  · intro s r hmem
    exact List.mem_of_mem_filter hmem
  · intro song s
    match song with
    | none => rfl
    | some sg =>
      by_cases hv : validSong sg = true
      · simp [addDefaultPlaylist, hv]
      · simp [addDefaultPlaylist, Bool.eq_false_iff.mpr hv]

/-- Witness for C1: the admission facts at a concrete accepted submission
and a concrete auto-fill insertion. -/
theorem c1_insertion_admission_witness :
    (countNonPlayed "10.0.0.1" initialState < 5 ∧
      "s8" ∉ pendingIds initialState ∧
      "s8" ∉ rpIds (postRequest 1767268700000 "10.0.0.1"
        (some (mkSong "s8")) initialState).2) ∧
    (pendingIds fallbackState = [] ∧
      "f1" ∉ rpIds (autoFillQueue 1767269000000 0 fallbackState)) :=
  ⟨c1_insertion_admission.1 1767268700000 "10.0.0.1" (some (mkSong "s8"))
      initialState ⟨1, "s8", "t", "a", "3:00", none, 1767268700, false⟩
      (by decide) (by decide),
   c1_insertion_admission.2.1 1767269000000 0 fallbackState
      ⟨1, "f1", "t", "a", "3:00", none, 1767269000, false⟩
      (by decide) (by decide)⟩

/-- Counterexample for C1 as stated: with `explicit_allowed = false`, the
submission handler still inserts a queue row for a song flagged explicit —
no path applies the spec's explicit-content admission check. -/
theorem c1_explicit_unchecked_cex :
    (updateSettings ⟨"dark", false, "[]", "", "", ""⟩
        initialState).settings.explicit_allowed = false ∧
    ((postRequest 1767350000000 "172.16.0.9"
        (some ⟨"e7", "Edge", "EA", "2:45", none, true⟩)
        (updateSettings ⟨"dark", false, "[]", "", "", ""⟩
          initialState)).2.queue.map (fun r => r.song_id)) = ["e7"] ∧
    (⟨"e7", "Edge", "EA", "2:45", none, true⟩ : Song).explicit = true := by
  decide

/-! ## C5: FIFO order and pending uniqueness -/

/-- Sorting an already-sorted queue segment is the identity, so
`ORDER BY requested_at ASC` returns physical (insertion) order. -/
theorem sortByTime_of_pairwise (l : List QueueRow)
    (h : List.Pairwise (fun a b : QueueRow =>
      a.requested_at ≤ b.requested_at) l) :
    sortByTime l = l := by
  induction l with
  | nil => rfl
  | cons x xs ih =>
    have hx := List.pairwise_cons.mp h
    rw [sortByTime, ih hx.2]
    cases xs with
    | nil => rfl
    | cons y ys =>
      rw [insertByTime, if_pos (hx.1 y (List.mem_cons_self y ys))]

/-- Marking rows played only shrinks the pending id sequence. -/
theorem pending_map_setPlayed_sublist (l : List QueueRow) (qid : Nat) :
    List.Sublist
      (((l.map (fun r =>
          if r.id == qid then { r with played := true } else r)).filter
        (fun q => !q.played)).map (fun q => q.song_id))
      ((l.filter (fun q => !q.played)).map (fun q => q.song_id)) := by
  induction l with
  | nil => simp
  | cons x xs ih =>
    by_cases hid : (x.id == qid) = true
    · have hfx : (if (x.id == qid) = true
          then ({ x with played := true } : QueueRow) else x) =
            { x with played := true } := if_pos hid
      rw [List.map_cons, hfx, List.filter_cons, List.filter_cons,
        if_neg (by simp)]
      by_cases hpx : x.played = true
      · have hc : ¬((!x.played) = true) := by simp [hpx]
        rw [if_neg hc]
        exact ih
      · have hc : (!x.played) = true := by
          simp [Bool.eq_false_iff.mpr hpx]
        rw [if_pos hc, List.map_cons]
        exact ih.trans (List.sublist_cons_self _ _)
    · have hfx : (if (x.id == qid) = true
          then ({ x with played := true } : QueueRow) else x) = x :=
        if_neg hid
      rw [List.map_cons, hfx, List.filter_cons, List.filter_cons]
      by_cases hpx : x.played = true
      · have hc : ¬((!x.played) = true) := by simp [hpx]
        rw [if_neg hc, if_neg hc]
        exact ih
      · have hc : (!x.played) = true := by
          simp [Bool.eq_false_iff.mpr hpx]
        rw [if_pos hc, if_pos hc, List.map_cons, List.map_cons]
        exact ih.cons₂ _

/-- The submission handler preserves the queue invariant as the clock
advances. -/
theorem invQ_submit (t now : Nat) (ip : String) (song : Option Song)
    (s : State) (hInv : InvQ t s) (ht : t ≤ now) :
    InvQ now (postRequest now ip song s).2 := by
  obtain ⟨hbound, hpair, hnodup⟩ := hInv
  have hb' : ∀ r ∈ s.queue, r.requested_at ≤ now / 1000 :=
    fun r hr => le_trans (hbound r hr) (Nat.div_le_div_right ht)
  match song with
  | none => exact ⟨hb', hpair, hnodup⟩
  | some sg =>
    rcases postRequest_branches now ip sg s with
      ⟨_, he⟩ | ⟨_, _, he⟩ | ⟨_, _, _, he⟩ | ⟨_, _, _, _, he⟩ |
      ⟨_, _, _, _, _, he⟩ | ⟨hv, h5, hc, hd, hr, he⟩
    · rw [he]; exact ⟨hb', hpair, hnodup⟩
    · rw [he]; exact ⟨hb', hpair, hnodup⟩
    · rw [he]; exact ⟨hb', hpair, hnodup⟩
    · rw [he]; exact ⟨hb', hpair, hnodup⟩
    · rw [he]; exact ⟨hb', hpair, hnodup⟩
    · rw [he]
      refine ⟨?_, ?_, ?_⟩
      · intro r hr
        rcases List.mem_append.mp hr with hold | hnew
        · exact hb' r hold
        · have : r = ⟨(cleanRecentlyPlayed now s).nextQueueId, sg.sid,
              sg.title, sg.artist, sg.duration, sg.thumbnail,
              now / 1000, false⟩ := by simpa using hnew
          rw [this]
      · refine List.pairwise_append.mpr ⟨hpair, List.pairwise_singleton _ _, ?_⟩
        intro a ha b hb
        have : b = ⟨(cleanRecentlyPlayed now s).nextQueueId, sg.sid,
            sg.title, sg.artist, sg.duration, sg.thumbnail,
            now / 1000, false⟩ := by simpa using hb
        rw [this]
        exact hb' a ha
      · show ((((cleanRecentlyPlayed now s).queue ++ ([_] : List QueueRow)).filter
            (fun q => !q.played)).map (fun q => q.song_id)).Nodup
        rw [List.filter_append, List.map_append]
        refine List.nodup_append.mpr ⟨hnodup, by simp, ?_⟩
        intro x hx1 hx2
        simp at hx2
        rw [hx2] at hx1
        exact not_mem_pendingIds_of_dupPending_false sg.sid s hd hx1

/-- The auto-fill tick preserves the queue invariant as the clock
advances. -/
theorem invQ_tick (t now k : Nat) (s : State) (hInv : InvQ t s)
    (ht : t ≤ now) : InvQ now (autoFillQueue now k s) := by
  obtain ⟨hbound, hpair, hnodup⟩ := hInv
  have hb' : ∀ r ∈ s.queue, r.requested_at ≤ now / 1000 :=
    fun r hr => le_trans (hbound r hr) (Nat.div_le_div_right ht)
  by_cases h0 : pendingCount s = 0
  · by_cases hlen : (eligibleFallback s).length = 0
    · rw [autoFillQueue, if_neg (by simp [h0]), dif_pos hlen]
      exact ⟨hb', hpair, hnodup⟩
    · rw [autoFillQueue, if_neg (by simp [h0]), dif_neg hlen]
      have hfe : s.queue.filter (fun q => !q.played) = [] :=
        List.length_eq_zero.mp h0
      refine ⟨?_, ?_, ?_⟩
      · intro r hr
        rcases List.mem_append.mp hr with hold | hnew
        · exact hb' r hold
        · rw [show r = ⟨s.nextQueueId,
              ((eligibleFallback s).get ⟨k % (eligibleFallback s).length,
                Nat.mod_lt _ (Nat.pos_of_ne_zero hlen)⟩).song_id,
              ((eligibleFallback s).get ⟨k % (eligibleFallback s).length,
                Nat.mod_lt _ (Nat.pos_of_ne_zero hlen)⟩).title,
              ((eligibleFallback s).get ⟨k % (eligibleFallback s).length,
                Nat.mod_lt _ (Nat.pos_of_ne_zero hlen)⟩).artist,
              ((eligibleFallback s).get ⟨k % (eligibleFallback s).length,
                Nat.mod_lt _ (Nat.pos_of_ne_zero hlen)⟩).duration,
              ((eligibleFallback s).get ⟨k % (eligibleFallback s).length,
                Nat.mod_lt _ (Nat.pos_of_ne_zero hlen)⟩).thumbnail,
              now / 1000, false⟩ from by simpa using hnew]
      · refine List.pairwise_append.mpr
          ⟨hpair, List.pairwise_singleton _ _, ?_⟩
        intro a ha b hb
        have hb1 : b.requested_at = now / 1000 := by
          have : b = ⟨s.nextQueueId,
              ((eligibleFallback s).get ⟨k % (eligibleFallback s).length,
                Nat.mod_lt _ (Nat.pos_of_ne_zero hlen)⟩).song_id,
              ((eligibleFallback s).get ⟨k % (eligibleFallback s).length,
                Nat.mod_lt _ (Nat.pos_of_ne_zero hlen)⟩).title,
              ((eligibleFallback s).get ⟨k % (eligibleFallback s).length,
                Nat.mod_lt _ (Nat.pos_of_ne_zero hlen)⟩).artist,
              ((eligibleFallback s).get ⟨k % (eligibleFallback s).length,
                Nat.mod_lt _ (Nat.pos_of_ne_zero hlen)⟩).duration,
              ((eligibleFallback s).get ⟨k % (eligibleFallback s).length,
                Nat.mod_lt _ (Nat.pos_of_ne_zero hlen)⟩).thumbnail,
              now / 1000, false⟩ := by simpa using hb
          rw [this]
        rw [hb1]
        exact hb' a ha
      · show (((s.queue ++ ([_] : List QueueRow)).filter
            (fun q => !q.played)).map (fun q => q.song_id)).Nodup
        rw [List.filter_append, hfe]
        simp
  · rw [autoFillQueue, if_pos h0]
    exact ⟨hb', hpair, hnodup⟩

/-- The operation `markPlayed` preserves the queue invariant as the clock advances. -/
theorem invQ_played (t now qid : Nat) (s : State) (hInv : InvQ t s)
    (ht : t ≤ now) : InvQ now (markPlayed now qid s).2 := by
  obtain ⟨hbound, hpair, hnodup⟩ := hInv
  have hb' : ∀ r ∈ s.queue, r.requested_at ≤ now / 1000 :=
    fun r hr => le_trans (hbound r hr) (Nat.div_le_div_right ht)
  cases hfind : s.queue.find? (fun r => r.id == qid) with
  | none =>
    rw [markPlayed, hfind]
    exact ⟨hb', hpair, hnodup⟩
  | some q =>
    rw [markPlayed, hfind]
    refine ⟨?_, ?_, ?_⟩
    · intro r hr
      simp only at hr
      rcases List.mem_map.mp hr with ⟨r0, hr0, hr0e⟩
      have : r.requested_at = r0.requested_at := by
        rw [← hr0e]
        by_cases hid : (r0.id == qid) = true
        · simp [hid]
        · simp [hid]
      rw [this]
      exact hb' r0 hr0
    · refine List.Pairwise.map _ ?_ hpair
      intro a b hab
      by_cases ha : (a.id == qid) = true <;>
        by_cases hb : (b.id == qid) = true <;>
          simp [ha, hb, hab]
    · show ((((s.queue.map (fun r =>
          if r.id == qid then { r with played := true } else r))).filter
            (fun q => !q.played)).map (fun q => q.song_id)).Nodup
      exact (pending_map_setPlayed_sublist s.queue qid).nodup hnodup

/-- Row deletion preserves the queue invariant. -/
theorem invQ_remove (t qid : Nat) (s : State) (hInv : InvQ t s) :
    InvQ t (removeFromQueue qid s).2 := by
  obtain ⟨hbound, hpair, hnodup⟩ := hInv
  refine ⟨?_, ?_, ?_⟩
  · intro r hr
    exact hbound r (List.mem_of_mem_filter hr)
  · exact hpair.sublist (List.filter_sublist _)
  · show (((s.queue.filter (fun q => !(q.id == qid))).filter
        (fun q => !q.played)).map (fun q => q.song_id)).Nodup
    refine List.Nodup.sublist (List.Sublist.map _ ?_) hnodup
    exact List.Sublist.filter _ (List.filter_sublist _)

/-- Clearing the pending queue preserves the queue invariant. -/
theorem invQ_clear (t : Nat) (s : State) (hInv : InvQ t s) :
    InvQ t (clearQueue s) := by
  obtain ⟨hbound, hpair, hnodup⟩ := hInv
  refine ⟨?_, ?_, ?_⟩
  · intro r hr
    exact hbound r (List.mem_of_mem_filter hr)
  · exact hpair.sublist (List.filter_sublist _)
  · show (((s.queue.filter (fun q => q.played)).filter
        (fun q => !q.played)).map (fun q => q.song_id)).Nodup
    refine List.Nodup.sublist (List.Sublist.map _ ?_) hnodup
    exact List.Sublist.filter _ (List.filter_sublist _)

/-- The periodic sweep leaves the queue untouched; the invariant survives
the clock advance. -/
theorem invQ_sweep (t now : Nat) (s : State) (hInv : InvQ t s)
    (ht : t ≤ now) : InvQ now (cleanRecentlyPlayed now s) := by
  obtain ⟨hbound, hpair, hnodup⟩ := hInv
  exact ⟨fun r hr =>
    le_trans (hbound r hr) (Nat.div_le_div_right ht), hpair, hnodup⟩

/-- Adding to the fallback playlist never touches the queue. -/
theorem addDefaultPlaylist_queue (song : Option Song) (s : State) :
    (addDefaultPlaylist song s).queue = s.queue := by
  match song with
  | none => rfl
  | some sg =>
    by_cases hv : validSong sg = true
    · simp [addDefaultPlaylist, hv]
    · simp [addDefaultPlaylist, Bool.eq_false_iff.mpr hv]

/-- The queue invariant only depends on the queue column. -/
theorem invQ_of_queue_eq (t : Nat) (s s' : State)
    (hq : s'.queue = s.queue) (hInv : InvQ t s) : InvQ t s' := by
  obtain ⟨hb, hp, hn⟩ := hInv
  refine ⟨?_, ?_, ?_⟩
  · rw [hq]; exact hb
  · rw [hq]; exact hp
  · show ((s'.queue.filter (fun q => !q.played)).map
      (fun q => q.song_id)).Nodup
    rw [hq]
    exact hn

/-- Running a chronological trace from an invariant state lands in an
invariant state. -/
theorem invQ_run (tr : List Event) : ∀ (t : Nat) (s : State), InvQ t s →
    chrono t tr = true → ∃ t', InvQ t' (run s tr) := by
  induction tr with
  | nil => exact fun t s h _ => ⟨t, h⟩
  | cons e es ih =>
    intro t s h hch
    match e with
    | .submit now ip song =>
      simp only [chrono, Event.time, Bool.and_eq_true, decide_eq_true_eq]
        at hch
      exact ih now _ (invQ_submit t now ip song s h hch.1) hch.2
    | .tick now k =>
      simp only [chrono, Event.time, Bool.and_eq_true, decide_eq_true_eq]
        at hch
      exact ih now _ (invQ_tick t now k s h hch.1) hch.2
    | .played now qid =>
      simp only [chrono, Event.time, Bool.and_eq_true, decide_eq_true_eq]
        at hch
      exact ih now _ (invQ_played t now qid s h hch.1) hch.2
    | .cleanSweep now =>
      simp only [chrono, Event.time, Bool.and_eq_true, decide_eq_true_eq]
        at hch
      exact ih now _ (invQ_sweep t now s h hch.1) hch.2
    | .removeReq qid =>
      simp only [chrono, Event.time] at hch
      exact ih t _ (invQ_remove t qid s h) hch
    | .clearPending =>
      simp only [chrono, Event.time] at hch
      exact ih t _ (invQ_clear t s h) hch
    | .setSettings inp =>
      simp only [chrono, Event.time] at hch
      exact ih t _ (invQ_of_queue_eq t s _ rfl h) hch
    | .cooldownClear ip =>
      simp only [chrono, Event.time] at hch
      exact ih t _ (invQ_of_queue_eq t s _ rfl h) hch
    | .cooldownClearAll =>
      simp only [chrono, Event.time] at hch
      exact ih t _ (invQ_of_queue_eq t s _ rfl h) hch
    | .addDefault song =>
      simp only [chrono, Event.time] at hch
      exact ih t _
        (invQ_of_queue_eq t s _ (addDefaultPlaylist_queue song s) h) hch
    | .removeDefault pid =>
      simp only [chrono, Event.time] at hch
      exact ih t _ (invQ_of_queue_eq t s _ rfl h) hch

/-- Claim C5: In every state reachable by a chronological trace from the
fresh database, `GET /api/queue` returns the non-played rows in physical
insertion order (the `ORDER BY requested_at ASC` sort is the identity:
strict FIFO, no priority), that order is nondecreasing in submission time,
and no `song_id` occurs twice among the non-played rows. -/
theorem c5_fifo_nodup (tr : List Event) (h : chrono 0 tr = true) :
    listPending (run initialState tr) =
      (run initialState tr).queue.filter (fun q => !q.played) ∧
    List.Pairwise (fun a b : QueueRow => a.requested_at ≤ b.requested_at)
      (listPending (run initialState tr)) ∧
    (pendingIds (run initialState tr)).Nodup := by
  have hInv0 : InvQ 0 initialState := by
    refine ⟨?_, ?_, ?_⟩ <;> simp [initialState, pendingIds]
  obtain ⟨t', hb, hp, hn⟩ := invQ_run tr 0 initialState hInv0 h
  have hpf : List.Pairwise (fun a b : QueueRow =>
      a.requested_at ≤ b.requested_at)
      ((run initialState tr).queue.filter (fun q => !q.played)) :=
    hp.sublist (List.filter_sublist _)
  have hsort : listPending (run initialState tr) =
      (run initialState tr).queue.filter (fun q => !q.played) :=
    sortByTime_of_pairwise _ hpf
  exact ⟨hsort, hsort ▸ hpf, hn⟩

/-- Witness for C5 at a concrete four-event chronological trace. -/
theorem c5_fifo_nodup_witness :
    listPending (run initialState
        [.submit 1767268800000 "u" (some (mkSong "1")),
         .submit 1767268830000 "v" (some (mkSong "2")),
         .tick 1767268840000 0,
         .played 1767268850000 1]) =
      (run initialState
        [.submit 1767268800000 "u" (some (mkSong "1")),
         .submit 1767268830000 "v" (some (mkSong "2")),
         .tick 1767268840000 0,
         .played 1767268850000 1]).queue.filter (fun q => !q.played) ∧
    List.Pairwise (fun a b : QueueRow => a.requested_at ≤ b.requested_at)
      (listPending (run initialState
        [.submit 1767268800000 "u" (some (mkSong "1")),
         .submit 1767268830000 "v" (some (mkSong "2")),
         .tick 1767268840000 0,
         .played 1767268850000 1])) ∧
    (pendingIds (run initialState
        [.submit 1767268800000 "u" (some (mkSong "1")),
         .submit 1767268830000 "v" (some (mkSong "2")),
         .tick 1767268840000 0,
         .played 1767268850000 1])).Nodup :=
  c5_fifo_nodup
    [.submit 1767268800000 "u" (some (mkSong "1")),
     .submit 1767268830000 "v" (some (mkSong "2")),
     .tick 1767268840000 0,
     .played 1767268850000 1] (by decide)

/-- Witness for C8 at a concrete pending request. -/
theorem c8_markPlayed_spec_witness :
    (markPlayed 1767268800000 1 pendingOneState).2.recently_played =
      pendingOneState.recently_played ++
        [⟨pendingOneState.nextRpId, "s8", "t", "a", 1767268800000⟩] ∧
    ∀ r ∈ (markPlayed 1767268800000 1 pendingOneState).2.queue,
      r.id = 1 → r.played = true :=
  (c8_markPlayed_spec 1767268800000 1 pendingOneState).2.2
    ⟨1, "s8", "t", "a", "3:00", none, 1767268700, false⟩ (by decide)

/-- Witness for C9 at the cooldown outcome itself. -/
theorem c9_cooldown_response_fixed_message_witness :
    respOf .cooldownActive =
        (429, "Please wait 30 seconds between requests") ↔
      ReqResult.cooldownActive = .cooldownActive :=
  c9_cooldown_response_fixed_message .cooldownActive
